import Mathlib

/-!
Shallow embedding of the audio-to-video workflow coordinator
(src/App.tsx, src/geminiService.ts, src/types.ts).

The React component state of App.tsx becomes the record AppState; every
event handler of App.tsx becomes a function AppState to AppState; the
settlement of an asynchronous promise (the analysis call of
performAnalysis, the generateVeoVideo call of handleGenerateVideo)
becomes an explicit event carrying the settled value, applied to the
state current at arrival, exactly as the handler continuations run in
the source.  Playable object URLs (URL.createObjectURL /
URL.revokeObjectURL) are modelled as Nat handles drawn from a counter,
with the list of still-live handles carried in the state; the
useEffect keyed on videoUrl, which revokes the previous video blob URL
whenever videoUrl changes, is folded into the transitions that change
videoUrl.  The polling loop of generateVeoVideo is embedded
fuel-indexed: `none` means the loop is still running after that many
poll iterations.
-/

/-- AppStatus enum from src/types.ts. -/
inductive AppStatus
  | idle
  | analyzing
  | review
  | generating
  | completed
  | error
deriving DecidableEq, Repr

/-- AudioFile record from src/types.ts; `url` is the object-URL handle. -/
structure AudioFile where
  name : String
  type : String
  base64 : String
  url : Nat
deriving DecidableEq, Repr

/-- The file picked in the input element (name, MIME type, byte size,
and the base64 payload the FileReader produces from it). -/
structure FileData where
  name : String
  type : String
  size : Nat
  base64 : String
deriving DecidableEq, Repr

/-- Error message set by handleFileChange for an oversized file (src/App.tsx line 70). -/
def oversizeMsg : String := "File is too large. Please upload an MP3 under 8MB."

/-- Error message set by performAnalysis on failure (src/App.tsx line 98). -/
def analysisErrMsg : String :=
  "Failed to analyze audio. Please try a different file or check your connection."

/-- Fallback prompt substituted when the analysis response has no text
(src/geminiService.ts line 42). -/
def fallbackPrompt : String := "A futuristic abstract scene pulsing with neon colors."

/-- Message of the error thrown by analyzeAudioForPrompt on failure
(src/geminiService.ts line 45). -/
def analyzeFailedMsg : String := "Failed to analyze audio content."

/-- Message of the error thrown by generateVeoVideo on any failure
(src/geminiService.ts line 94); every throw inside the try block is
caught and rethrown with this message. -/
def veoFailMsg : String :=
  "Video generation failed. Please ensure you are using a paid billing project enabled for Veo."

/-- analyzeAudioForPrompt (src/geminiService.ts lines 7-47), as a function of
what the inference call settles with: a transport error, or a response whose
`text` field is absent (`none`), empty, or a non-empty string.  The source
returns `response.text || fallback` on success and throws on failure. -/
def analyzeAudioForPrompt (resp : Except Unit (Option String)) : Except String String :=
  match resp with
  | Except.error _ => Except.error analyzeFailedMsg
  | Except.ok t =>
    Except.ok (match t with
      | none => fallbackPrompt
      | some s => if s = "" then fallbackPrompt else s)

/-- An operation handle of the video-generation service: the `done` flag and,
once done, the list of generated-video URIs
(`operation.response?.generatedVideos?.[n]?.video?.uri`). -/
structure VideoOperation where
  done : Bool
  videoUris : List String
deriving DecidableEq, Repr

/-- The polling loop of generateVeoVideo (src/geminiService.ts lines 68-72):
`while (!operation.done) { await sleep(10000); operation = await poll() }`.
`fuel` bounds the number of iterations this evaluation may take; `polls i`
is what the i-th getVideosOperation call settles with.  The result is
`none` when the loop is still running after `fuel` iterations, otherwise
the list of sleeps performed (in milliseconds, one per iteration) together
with the final operation or the transport error that escaped the loop. -/
def pollLoop : Nat → VideoOperation → (Nat → Except String VideoOperation) →
    Option (List Nat × Except String VideoOperation)
  | 0, op, _ => if op.done then some ([], Except.ok op) else none
  | f + 1, op, polls =>
    if op.done then some ([], Except.ok op)
    else
      match polls 0 with
      | Except.error e => some ([10000], Except.error e)
      | Except.ok op2 =>
        match pollLoop f op2 (fun n => polls (n + 1)) with
        | none => none
        | some (waits, r) => some (10000 :: waits, r)

/-- Whether a poll settlement exits the loop: a transport error, or an
operation with `done` set. -/
def pollStops : Except String VideoOperation → Bool
  | Except.error _ => true
  | Except.ok op => op.done

/-- What the external service does during one generateVeoVideo call:
what generateVideos settles with, what each poll settles with, and
whether the final fetch of the video URI returns 2xx. -/
structure VeoScript where
  submit : Except String VideoOperation
  polls : Nat → Except String VideoOperation
  fetchOk : Bool

/-- generateVeoVideo (src/geminiService.ts lines 49-96) run against a
service script: submit, poll until done, extract
`response?.generatedVideos?.[0]?.video?.uri`, fetch it.  Every failure
inside the try block (submission throw, poll throw, missing URI, non-2xx
fetch) is caught and normalized to `veoFailMsg`.  `none` means the
polling loop is still running after `fuel` iterations. -/
def runVeo (fuel : Nat) (sc : VeoScript) : Option (Except String String) :=
  match sc.submit with
  | Except.error _ => some (Except.error veoFailMsg)
  | Except.ok op =>
    match pollLoop fuel op sc.polls with
    | none => none
    | some (_, Except.error _) => some (Except.error veoFailMsg)
    | some (_, Except.ok opDone) =>
      match opDone.videoUris.head? with
      | none => some (Except.error veoFailMsg)
      | some uri => if sc.fetchOk then some (Except.ok uri) else some (Except.error veoFailMsg)

/-- The React state of App.tsx (src/App.tsx lines 8-12) plus bookkeeping:
`liveUrls` are the object-URL handles created and not yet revoked,
`nextUrl` feeds URL.createObjectURL, `pendingAnalysis` / `pendingJobs`
count outstanding analysis and generation promises, and `submitCount` /
`analysisCount` count calls made to the two service clients. -/
structure AppState where
  status : AppStatus
  audioFile : Option AudioFile
  generatedPrompt : String
  videoUrl : Option Nat
  error : Option String
  liveUrls : List Nat
  nextUrl : Nat
  pendingAnalysis : Nat
  pendingJobs : Nat
  submitCount : Nat
  analysisCount : Nat
deriving DecidableEq, Repr

/-- The initial component state (src/App.tsx lines 8-12). -/
def initialState : AppState :=
  { status := AppStatus.idle, audioFile := none, generatedPrompt := "",
    videoUrl := none, error := none, liveUrls := [], nextUrl := 0,
    pendingAnalysis := 0, pendingJobs := 0, submitCount := 0, analysisCount := 0 }

/-- handleFileChange (src/App.tsx lines 64-90): reject a file over
8 * 1024 * 1024 bytes with an error message; otherwise create the audio
object URL, store the AudioFile, clear the error, move to ANALYZING and
invoke the analysis call (performAnalysis). -/
def handleFileChange (f : FileData) (s : AppState) : AppState :=
  if f.size > 8 * 1024 * 1024 then
    { s with error := some oversizeMsg }
  else
    { s with
      audioFile := some { name := f.name, type := f.type, base64 := f.base64, url := s.nextUrl },
      liveUrls := s.nextUrl :: s.liveUrls,
      nextUrl := s.nextUrl + 1,
      error := none,
      status := AppStatus.analyzing,
      pendingAnalysis := s.pendingAnalysis + 1,
      analysisCount := s.analysisCount + 1 }

/-- The continuation of performAnalysis (src/App.tsx lines 92-101), run when
the analyzeAudioForPrompt promise settles; the source applies it to the
state current at arrival, with no staleness check.  A settlement event with
no outstanding analysis promise cannot occur and is a no-op. -/
def resolveAnalysis (resp : Except Unit (Option String)) (s : AppState) : AppState :=
  if s.pendingAnalysis = 0 then s
  else
    match analyzeAudioForPrompt resp with
    | Except.ok p =>
      { s with
        generatedPrompt := p,
        status := AppStatus.review,
        pendingAnalysis := s.pendingAnalysis - 1 }
    | Except.error _ =>
      { s with
        error := some analysisErrMsg,
        status := AppStatus.idle,
        pendingAnalysis := s.pendingAnalysis - 1 }

/-- The textarea onChange (src/App.tsx lines 256-260): it sets
generatedPrompt to the entered value.  The textarea is rendered only
inside the `status === AppStatus.REVIEW && audioFile` block (line 242),
so the edit can only occur in that configuration. -/
def editPrompt (v : String) (s : AppState) : AppState :=
  if s.status = AppStatus.review then
    if s.audioFile.isSome then { s with generatedPrompt := v } else s
  else s

/-- The synchronous prefix of handleGenerateVideo (src/App.tsx lines 103-108):
return immediately when generatedPrompt is falsy (empty); otherwise set
GENERATING, clear the error and start a generateVeoVideo call.  Note the
only guard is on the prompt being non-empty. -/
def handleGenerateVideo (s : AppState) : AppState :=
  if s.generatedPrompt = "" then s
  else
    { s with
      status := AppStatus.generating,
      error := none,
      pendingJobs := s.pendingJobs + 1,
      submitCount := s.submitCount + 1 }

/-- The continuation of handleGenerateVideo (src/App.tsx lines 109-116), run
when the generateVeoVideo promise settles; the source applies it to the
state current at arrival, with no staleness check.  On success the blob URL
created by generateVeoVideo becomes the new videoUrl and the useEffect on
videoUrl revokes the previous one; on failure the error message is stored
and the status returns to REVIEW. -/
def resolveJob (r : Except String String) (s : AppState) : AppState :=
  if s.pendingJobs = 0 then s
  else
    match r with
    | Except.ok _ =>
      { s with
        videoUrl := some s.nextUrl,
        liveUrls := s.nextUrl :: (match s.videoUrl with
          | some old => s.liveUrls.erase old
          | none => s.liveUrls),
        nextUrl := s.nextUrl + 1,
        status := AppStatus.completed,
        pendingJobs := s.pendingJobs - 1 }
    | Except.error e =>
      { s with
        error := some (if e = "" then "Failed to generate video." else e),
        status := AppStatus.review,
        pendingJobs := s.pendingJobs - 1
      }

/-- handleReset (src/App.tsx lines 119-129): back to IDLE with every field
cleared.  Setting videoUrl to null makes the useEffect keyed on videoUrl
(lines 24-30) revoke the previous video blob URL; nothing revokes the audio
object URL.  Outstanding promises are not cancelled. -/
def handleReset (s : AppState) : AppState :=
  { s with
    status := AppStatus.idle,
    audioFile := none,
    generatedPrompt := "",
    videoUrl := none,
    error := none,
    liveUrls := match s.videoUrl with
      | some old => s.liveUrls.erase old
      | none => s.liveUrls }

/-- The external triggers of the coordinator: the two user-interface events,
the prompt edit, the reset, and the settlement of each asynchronous call. -/
inductive Event
  | fileSelected (f : FileData)
  | analysisSettled (resp : Except Unit (Option String))
  | promptEdited (v : String)
  | generateClicked
  | jobSettled (r : Except String String)
  | resetClicked

/-- One coordinator step: dispatch an event to its handler. -/
def step (s : AppState) (e : Event) : AppState :=
  match e with
  | Event.fileSelected f => handleFileChange f s
  | Event.analysisSettled resp => resolveAnalysis resp s
  | Event.promptEdited v => editPrompt v s
  | Event.generateClicked => handleGenerateVideo s
  | Event.jobSettled r => resolveJob r s
  | Event.resetClicked => handleReset s

/-- Run a sequence of events from a state. -/
def run (s : AppState) (es : List Event) : AppState := es.foldl step s

/-- A small accepted file used in concrete runs. -/
def fileA : FileData := { name := "song.mp3", type := "audio/mpeg", size := 1000, base64 := "b" }

/-- State reached by selecting fileA and having the analysis settle with
text "p": status REVIEW, prompt "p". -/
def stReview : AppState :=
  run initialState [Event.fileSelected fileA, Event.analysisSettled (Except.ok (some "p"))]

/-- State reached from stReview by one generate trigger: status GENERATING
with one job outstanding. -/
def stGenerating : AppState := run stReview [Event.generateClicked]

/-- GeneratedPrompt is non-empty whenever Status is Generating or Completed. -/
def promptInv (s : AppState) : Prop :=
  (s.status = AppStatus.generating ∨ s.status = AppStatus.completed) → s.generatedPrompt ≠ ""

/-- A service script for one generation job: submission succeeds, the first
poll reports done with an empty video list. -/
def doneEmptyScript : VeoScript :=
  { submit := Except.ok { done := false, videoUris := [] },
    polls := fun _ => Except.ok { done := true, videoUris := [] },
    fetchOk := true }

/-- State reached by selecting fileA: status ANALYZING, one analysis outstanding. -/
def stAnalyzing : AppState := run initialState [Event.fileSelected fileA]

/-- A file of exactly 8 * 1024 * 1024 bytes. -/
def fileBoundary : FileData :=
  { name := "m.mp3", type := "audio/mpeg", size := 8 * 1024 * 1024, base64 := "c" }

/-- A file one byte over the limit. -/
def fileOversized : FileData :=
  { name := "big.mp3", type := "audio/mpeg", size := 8 * 1024 * 1024 + 1, base64 := "d" }

/-- Claim C9: if GeneratedPrompt is the empty string, triggering generate is a
complete no-op — the whole state (Status, AudioInput, GeneratedPrompt,
VideoResult, ErrorState) is unchanged and no job is submitted. -/
theorem empty_prompt_generate_noop (s : AppState) (h : s.generatedPrompt = "") :
    step s Event.generateClicked = s := by
  simp [step, handleGenerateVideo, h]

/-- Witness for empty_prompt_generate_noop at the initial state. -/
theorem empty_prompt_generate_noop_witness :
    step initialState Event.generateClicked = initialState :=
  empty_prompt_generate_noop initialState rfl

/-- Claim C10: the size check is a strict comparison against 8 * 1024 * 1024;
every file of that size or less is accepted — the AudioFile is stored, the
error cleared, status moves to ANALYZING and the analysis call is made — so
the oversized branch is taken only for strictly larger sizes. -/
theorem size_at_most_limit_accepted (s : AppState) (f : FileData)
    (h : f.size ≤ 8 * 1024 * 1024) :
    (step s (Event.fileSelected f)).status = AppStatus.analyzing ∧
    (step s (Event.fileSelected f)).audioFile =
      some { name := f.name, type := f.type, base64 := f.base64, url := s.nextUrl } ∧
    (step s (Event.fileSelected f)).analysisCount = s.analysisCount + 1 ∧
    (step s (Event.fileSelected f)).pendingAnalysis = s.pendingAnalysis + 1 ∧
    (step s (Event.fileSelected f)).error = none := by
  have hn : ¬ (f.size > 8 * 1024 * 1024) := Nat.not_lt.mpr h
  simp [step, handleFileChange, hn]

/-- Witness for size_at_most_limit_accepted at a file of exactly
8 * 1024 * 1024 bytes. -/
theorem size_exact_limit_accepted_witness :
    (step initialState (Event.fileSelected fileBoundary)).status = AppStatus.analyzing :=
  (size_at_most_limit_accepted initialState fileBoundary (by decide)).1

/-- Claim C7: selecting an oversized file in Idle is rejected: status stays
Idle, a fixed non-empty error message is set, no AudioFile is stored and no
analysis call is made. -/
theorem oversized_rejected_in_idle (s : AppState) (f : FileData)
    (hidle : s.status = AppStatus.idle) (hsize : 8 * 1024 * 1024 < f.size) :
    (step s (Event.fileSelected f)).status = AppStatus.idle ∧
    (step s (Event.fileSelected f)).error = some oversizeMsg ∧
    oversizeMsg ≠ "" ∧
    (step s (Event.fileSelected f)).audioFile = s.audioFile ∧
    (step s (Event.fileSelected f)).analysisCount = s.analysisCount ∧
    (step s (Event.fileSelected f)).pendingAnalysis = s.pendingAnalysis := by
  refine ⟨?_, ?_, by decide, ?_, ?_, ?_⟩ <;> simp [step, handleFileChange, hsize, hidle]

/-- Witness for oversized_rejected_in_idle at a file one byte over the limit. -/
theorem oversized_rejected_witness :
    (step initialState (Event.fileSelected fileOversized)).status = AppStatus.idle :=
  (oversized_rejected_in_idle initialState fileOversized rfl (by decide)).1

/-- Claim C3: an analysis resolution arriving while Status = Analyzing moves
the coordinator to Review and stores exactly the returned text as
GeneratedPrompt, except that an empty returned string is replaced by the
fallback prompt. -/
theorem analysis_resolution_review_prompt (s : AppState) (t : String)
    (hst : s.status = AppStatus.analyzing) (hp : 0 < s.pendingAnalysis) :
    (step s (Event.analysisSettled (Except.ok (some t)))).status = AppStatus.review ∧
    (step s (Event.analysisSettled (Except.ok (some t)))).generatedPrompt =
      (if t = "" then fallbackPrompt else t) := by
  have h0 : ¬ s.pendingAnalysis = 0 := Nat.pos_iff_ne_zero.mp hp
  by_cases ht : t = "" <;>
    simp [step, resolveAnalysis, analyzeAudioForPrompt, h0, ht]

/-- Witness for analysis_resolution_review_prompt: an empty response while
analyzing yields the fallback prompt. -/
theorem analysis_resolution_review_prompt_witness :
    (step stAnalyzing (Event.analysisSettled (Except.ok (some "")))).generatedPrompt =
      (if "" = "" then fallbackPrompt else "") :=
  (analysis_resolution_review_prompt stAnalyzing "" (by decide) (by decide)).2

/-- Counterexample to claim C6: after a reset the AudioInput record is
cleared but its playable-resource handle (object URL 0, created on file
selection) is still live — handleReset never revokes the audio object URL,
so the claimed release of the AudioInput handle does not happen. -/
theorem reset_keeps_audio_handle_live :
    (stReview.audioFile.map AudioFile.url) = some 0 ∧
    (step stReview Event.resetClicked).audioFile = none ∧
    (step stReview Event.resetClicked).liveUrls = [0] := by decide

/-- Claim C6 amended: reset transitions to Idle and clears every field
(AudioInput, GeneratedPrompt, VideoResult, ErrorState), and the VideoResult
handle is released by the url-change effect; the AudioInput handle is not
released (the live-handle list only loses the old video URL). -/
theorem reset_clears_and_releases_video (s : AppState) :
    (step s Event.resetClicked).status = AppStatus.idle ∧
    (step s Event.resetClicked).audioFile = none ∧
    (step s Event.resetClicked).generatedPrompt = "" ∧
    (step s Event.resetClicked).videoUrl = none ∧
    (step s Event.resetClicked).error = none ∧
    (step s Event.resetClicked).liveUrls =
      (match s.videoUrl with
        | some old => s.liveUrls.erase old
        | none => s.liveUrls) := by
  simp [step, handleReset]

/-- Counterexample to claim C1: in the state reached by one generate trigger
(a job is outstanding: pendingJobs = 1, one job submitted so far), a second
generate trigger is not a no-op — it submits a second job. -/
theorem generate_second_trigger_submits_again :
    stGenerating.status = AppStatus.generating ∧
    stGenerating.pendingJobs = 1 ∧
    stGenerating.submitCount = 1 ∧
    (step stGenerating Event.generateClicked).submitCount = 2 := by decide

/-- Claim C1 amended: handleGenerateVideo has no single-flight guard —
whenever GeneratedPrompt is non-empty, every generate trigger submits a
job, even while one is already outstanding; a trigger is ignored only when
GeneratedPrompt is empty. -/
theorem generate_always_submits_when_prompt_nonempty (s : AppState)
    (h : s.generatedPrompt ≠ "") :
    (step s Event.generateClicked).submitCount = s.submitCount + 1 ∧
    (step s Event.generateClicked).pendingJobs = s.pendingJobs + 1 ∧
    (step s Event.generateClicked).status = AppStatus.generating := by
  simp [step, handleGenerateVideo, h]

/-- Witness for generate_always_submits_when_prompt_nonempty, applied in a
state that already has an outstanding job. -/
theorem generate_always_submits_witness :
    (step stGenerating Event.generateClicked).submitCount = stGenerating.submitCount + 1 :=
  (generate_always_submits_when_prompt_nonempty stGenerating (by decide)).1

/-- Counterexample to claim C2: reset while the generation job is
outstanding, then the stale success arrives — the coordinator does not
discard it: Status becomes Completed and a VideoResult is stored, instead
of settling at Idle with no VideoResult. -/
theorem stale_job_result_overwrites_reset :
    (run stGenerating [Event.resetClicked, Event.jobSettled (Except.ok "u")]).status =
      AppStatus.completed ∧
    (run stGenerating [Event.resetClicked, Event.jobSettled (Except.ok "u")]).videoUrl =
      some 1 := by decide

/-- Claim C2 amended: there is no stale-response guard — after a reset with a
generation job outstanding, the job's eventual settlement is applied on
arrival: Status becomes Completed (success) or Review (failure), never
settling at Idle. -/
theorem stale_job_result_applied_after_reset (s : AppState) (r : Except String String)
    (h : 0 < s.pendingJobs) :
    ((run s [Event.resetClicked, Event.jobSettled r]).status = AppStatus.completed ∨
     (run s [Event.resetClicked, Event.jobSettled r]).status = AppStatus.review) ∧
    (run s [Event.resetClicked, Event.jobSettled r]).status ≠ AppStatus.idle := by
  have h0 : ¬ (handleReset s).pendingJobs = 0 := by
    simp only [handleReset]
    omega
  cases r with
  | ok u => simp [run, List.foldl, step, resolveJob, h0]
  | error e => simp [run, List.foldl, step, resolveJob, h0]

/-- Witness for stale_job_result_applied_after_reset in the concrete
generating state. -/
theorem stale_job_result_applied_witness :
    (run stGenerating [Event.resetClicked, Event.jobSettled (Except.error veoFailMsg)]).status ≠
      AppStatus.idle :=
  (stale_job_result_applied_after_reset stGenerating (Except.error veoFailMsg) (by decide)).2

/-- Counterexample to claim C4: in Review the prompt textarea accepts the
empty string, so Status = Review with an empty GeneratedPrompt is reachable
— the claimed invariant fails for Review. -/
theorem prompt_edit_empties_in_review :
    stReview.status = AppStatus.review ∧
    stReview.generatedPrompt = "p" ∧
    (step stReview (Event.promptEdited "")).status = AppStatus.review ∧
    (step stReview (Event.promptEdited "")).generatedPrompt = "" := by decide

/-- Claim C4 amended: every coordinator operation preserves the invariant
that GeneratedPrompt is non-empty whenever Status is Generating or
Completed (a job resolution taken while Status is still Generating); the
Review part of the claimed invariant fails, since a prompt edit during
Review may set GeneratedPrompt to the empty string. -/
theorem prompt_nonempty_inv_preserved (s : AppState) (h : promptInv s) :
    (∀ f, promptInv (step s (Event.fileSelected f))) ∧
    (∀ resp, promptInv (step s (Event.analysisSettled resp))) ∧
    (∀ v, promptInv (step s (Event.promptEdited v))) ∧
    promptInv (step s Event.generateClicked) ∧
    (∀ r, s.status = AppStatus.generating → promptInv (step s (Event.jobSettled r))) ∧
    promptInv (step s Event.resetClicked) := by
  refine ⟨?_, ?_, ?_, ?_, ?_, ?_⟩
  · intro f
    by_cases hs : f.size > 8 * 1024 * 1024
    · simpa [step, handleFileChange, hs, promptInv] using h
    · simp [step, handleFileChange, hs, promptInv]
  · intro resp
    by_cases hp : s.pendingAnalysis = 0
    · simpa [step, resolveAnalysis, hp] using h
    · cases hr : analyzeAudioForPrompt resp with
      | ok p => simp [step, resolveAnalysis, hp, hr, promptInv]
      | error e => simp [step, resolveAnalysis, hp, hr, promptInv]
  · intro v
    by_cases hrev : s.status = AppStatus.review
    · by_cases ha : s.audioFile.isSome
      · simp [step, editPrompt, hrev, ha, promptInv]
      · simpa [step, editPrompt, hrev, ha] using h
    · simpa [step, editPrompt, hrev] using h
  · by_cases hp : s.generatedPrompt = ""
    · simpa [step, handleGenerateVideo, hp] using h
    · simp [step, handleGenerateVideo, hp, promptInv]
  · intro r hgen
    by_cases hp : s.pendingJobs = 0
    · simpa [step, resolveJob, hp] using h
    · cases r with
      | ok u =>
        have hne : s.generatedPrompt ≠ "" := h (Or.inl hgen)
        simp [step, resolveJob, hp, promptInv, hne]
      | error e => simp [step, resolveJob, hp, promptInv]
  · simp [step, handleReset, promptInv]

/-- Witness for prompt_nonempty_inv_preserved: a successful job resolution
from the concrete generating state keeps the prompt non-empty. -/
theorem prompt_nonempty_inv_witness :
    promptInv (step stGenerating (Event.jobSettled (Except.ok "u"))) :=
  (prompt_nonempty_inv_preserved stGenerating (fun _ => by decide)).2.2.2.2.1
    (Except.ok "u") (by decide)

/-- Claim C5: a run whose submission succeeds but whose polling completes
done with an empty video-descriptor list makes generateVeoVideo fail with
the normalized message, and the coordinator — triggered from Review with a
non-empty prompt — returns to Review with that message as ErrorState and
GeneratedPrompt unchanged from before submission. -/
theorem done_empty_returns_review (s : AppState) (sc : VeoScript) (fuel : Nat)
    (op0 opd : VideoOperation) (sleeps : List Nat)
    (hsubmit : sc.submit = Except.ok op0)
    (hpoll : pollLoop fuel op0 sc.polls = some (sleeps, Except.ok opd))
    (hempty : opd.videoUris = [])
    (hrev : s.status = AppStatus.review) (hp : s.generatedPrompt ≠ "") :
    runVeo fuel sc = some (Except.error veoFailMsg) ∧
    (run s [Event.generateClicked, Event.jobSettled (Except.error veoFailMsg)]).status =
      AppStatus.review ∧
    (run s [Event.generateClicked, Event.jobSettled (Except.error veoFailMsg)]).error =
      some veoFailMsg ∧
    (run s [Event.generateClicked, Event.jobSettled (Except.error veoFailMsg)]).generatedPrompt =
      s.generatedPrompt := by
  have hv : ¬ (veoFailMsg = "") := by decide
  refine ⟨?_, ?_, ?_, ?_⟩
  · simp [runVeo, hsubmit, hpoll, hempty]
  all_goals
    simp [run, List.foldl, step, handleGenerateVideo, hp, resolveJob, hv]

/-- Witness for done_empty_returns_review against the concrete
done-with-empty-list script. -/
theorem done_empty_returns_review_witness :
    runVeo 2 doneEmptyScript = some (Except.error veoFailMsg) :=
  (done_empty_returns_review stReview doneEmptyScript 2
    { done := false, videoUris := [] } { done := true, videoUris := [] } [10000]
    rfl rfl rfl (by decide) (by decide)).1

/-- Index shift for a bounded existential, used to step the polling loop. -/
theorem exists_lt_succ_shift (n : Nat) (P : Nat → Prop) :
    (∃ i, i < n + 1 ∧ P i) ↔ P 0 ∨ ∃ i, i < n ∧ P (i + 1) := by
  constructor
  · rintro ⟨i, hi, hp⟩
    cases i with
    | zero => exact Or.inl hp
    | succ j => exact Or.inr ⟨j, by omega, hp⟩
  · rintro (h | ⟨i, hi, hp⟩)
    · exact ⟨0, by omega, h⟩
    · exact ⟨i + 1, by omega, hp⟩

/-- Claim C8: the polling loop sleeps exactly 10000 ms before every poll
(each recorded wait equals 10000) and has no attempt bound or overall
timeout: for every iteration budget, the loop has returned within that
budget exactly when the initial operation was already done or some poll
within the budget settled with a transport error or a done operation —
otherwise it is still running. -/
theorem poll_loop_fixed_interval_until_done (fuel : Nat) (op : VideoOperation)
    (polls : Nat → Except String VideoOperation) :
    ((pollLoop fuel op polls).isSome ↔
      (op.done = true ∨ ∃ i, i < fuel ∧ pollStops (polls i) = true)) ∧
    (∀ sleeps r, pollLoop fuel op polls = some (sleeps, r) → ∀ w ∈ sleeps, w = 10000) := by
  induction fuel generalizing op polls with
  | zero =>
    by_cases hd : op.done = true
    · refine ⟨by simp [pollLoop, hd], ?_⟩
      intro sleeps r hval w hw
      simp [pollLoop, hd] at hval
      obtain ⟨h1, h2⟩ := hval
      subst h1
      simp at hw
    · refine ⟨by simp [pollLoop, hd], ?_⟩
      intro sleeps r hval w hw
      simp [pollLoop, hd] at hval
  | succ f ih =>
    by_cases hd : op.done = true
    · refine ⟨by simp [pollLoop, hd], ?_⟩
      intro sleeps r hval w hw
      simp [pollLoop, hd] at hval
      obtain ⟨h1, h2⟩ := hval
      subst h1
      simp at hw
    · cases hp0 : polls 0 with
      | error e =>
        refine ⟨Iff.intro (fun _ => ?_) (fun _ => ?_), ?_⟩
        · exact Or.inr ⟨0, by omega, by simp [hp0, pollStops]⟩
        · simp [pollLoop, hd, hp0]
        · intro sleeps r hval w hw
          simp [pollLoop, hd, hp0] at hval
          obtain ⟨h1, h2⟩ := hval
          subst h1
          simp at hw
          exact hw
      | ok op2 =>
        have IH := ih op2 (fun n => polls (n + 1))
        refine ⟨?_, ?_⟩
        · cases hrec : pollLoop f op2 (fun n => polls (n + 1)) with
          | none =>
            have h1 := IH.1
            rw [hrec] at h1
            simp only [Option.isSome_none, Bool.false_eq_true, false_iff] at h1
            push_neg at h1
            have hstep : pollLoop (f + 1) op polls = none := by
              simp [pollLoop, hd, hp0, hrec]
            rw [hstep]
            simp only [Option.isSome_none, Bool.false_eq_true, false_iff]
            rintro (hdo | hex)
            · exact hd hdo
            · rw [exists_lt_succ_shift] at hex
              rcases hex with h0 | ⟨i, hi, hstop⟩
              · rw [hp0] at h0
                exact h1.1 h0
              · exact h1.2 i hi hstop
          | some pr =>
            obtain ⟨waits, r2⟩ := pr
            have h1 := IH.1
            rw [hrec] at h1
            simp only [Option.isSome_some, true_iff] at h1
            have hstep : pollLoop (f + 1) op polls = some (10000 :: waits, r2) := by
              simp [pollLoop, hd, hp0, hrec]
            rw [hstep]
            simp only [Option.isSome_some, true_iff]
            refine Or.inr ?_
            rw [exists_lt_succ_shift]
            rcases h1 with hdo2 | ⟨i, hi, hstop⟩
            · refine Or.inl ?_
              rw [hp0]
              exact hdo2
            · exact Or.inr ⟨i, hi, hstop⟩
        · intro sleeps r hval w hw
          cases hrec : pollLoop f op2 (fun n => polls (n + 1)) with
          | none =>
            simp [pollLoop, hd, hp0, hrec] at hval
          | some pr =>
            obtain ⟨waits, r2⟩ := pr
            simp [pollLoop, hd, hp0, hrec] at hval
            obtain ⟨h1, h2⟩ := hval
            subst h1
            simp at hw
            rcases hw with hw | hw
            · exact hw
            · exact IH.2 waits r2 hrec w hw

/-- Witness for poll_loop_fixed_interval_until_done: a loop whose first poll
reports done terminates within two iterations. -/
theorem poll_loop_witness :
    (pollLoop 2 { done := false, videoUris := [] }
      (fun _ => Except.ok { done := true, videoUris := ["u"] })).isSome = true := by
  have h := (poll_loop_fixed_interval_until_done 2 { done := false, videoUris := [] }
    (fun _ => Except.ok { done := true, videoUris := ["u"] })).1
  exact h.mpr (Or.inr ⟨0, by omega, by rfl⟩)
